import Mathlib

/-!
Verification of the CrossPoint Reader font-conversion pipeline.

This file gives a shallow embedding of the two CPF converters of the
repository:

* `src/lib/EpdFont/scripts/fontconvert_bin.py`  (multi-face font stack), and
* `src/tools/font-converter/cpf_convert.py`     (single face),

and settles the frozen claims about them.  Pure Python loops become
structural recursions over lists; the mutable accumulators (`px`,
`total_bitmap_size`, the running interval offset) become explicitly
threaded state.  Machine integers are `Nat`/`Int` with explicit `% 2^w`
where the `struct` formats truncate.  The FreeType engine is abstracted
as a `Face` record of pure lookup functions, exactly the surface the
scripts read (`get_char_index`, the glyph slot after `load_glyph`, and
`face.size` metrics).
-/

/-- `math.floor(val / 64)` on a FreeType 26.6 fixed-point value
(`norm_floor` in both scripts).  For an integer argument the Python
float division by `2^6` is exact, so this is floor division. -/
def norm_floor (val : Int) : Int := Int.fdiv val 64

/-- `math.ceil(val / 64)` (`norm_ceil` in both scripts). -/
def norm_ceil (val : Int) : Int := -Int.fdiv (-val) 64

/-! ## `struct` serialization

Little-endian byte lists for the format characters used by the scripts:
`B` (u8), `b` (i8), `h` (i16), `H` (u16), `i` (i32), `I` (u32), `x`
(one zero pad byte).  A byte is modelled as a `Nat`; packing reduces
the value exactly as two's-complement serialization does. -/

/-- `struct` size of one format character (formats are used with `<`,
so there is no alignment padding). -/
def fieldSize : Char → Nat
  | 'B' => 1
  | 'b' => 1
  | 'x' => 1
  | 'h' => 2
  | 'H' => 2
  | 'i' => 4
  | 'I' => 4
  | _ => 0

/-- `struct.calcsize` over a little-endian format string. -/
def calcsize (fmt : List Char) : Nat := (fmt.map fieldSize).sum

/-- `"<BBBxhhHxxI"`: the `GLYPH_STRUCT` format of `fontconvert_bin.py`
(line 20), also `GLYPH_FMT` of `cpf_convert.py` (line 239). -/
def GLYPH_STRUCT : List Char := ['B', 'B', 'B', 'x', 'h', 'h', 'H', 'x', 'x', 'I']

/-- `"<III"`: the `INTERVAL_FMT` format of `cpf_convert.py` (line 242),
also used inline for intervals in `fontconvert_bin.py` (line 175). -/
def INTERVAL_FMT : List Char := ['I', 'I', 'I']

/-- The `assert` statements guarding serialization in
`fontconvert_bin.py`: only `assert struct.calcsize(GLYPH_STRUCT) == 16`
(line 21).  There is no assertion about the interval record size. -/
def fbAsserts : List (Nat × Nat) := [(calcsize GLYPH_STRUCT, 16)]

/-- The `assert` statements guarding serialization in `cpf_convert.py`
(lines 240 and 243): glyph record size 16 and interval record size 12. -/
def cpfAsserts : List (Nat × Nat) := [(calcsize GLYPH_STRUCT, 16), (calcsize INTERVAL_FMT, 12)]

/-- All asserts of `fontconvert_bin.py` pass. -/
def fbAssertsPass : Bool := fbAsserts.all fun p => p.1 == p.2

/-- All asserts of `cpf_convert.py` pass. -/
def cpfAssertsPass : Bool := cpfAsserts.all fun p => p.1 == p.2

/-- `struct.pack("<B", n)`: one unsigned byte. -/
def u8 (n : Nat) : List Nat := [n % 256]

/-- `struct.pack` of a signed value into one byte (`b`); two's
complement via Euclidean `%`. -/
def i8 (z : Int) : List Nat := [(z % 256).toNat]

/-- `struct.pack("<H", n)`: unsigned 16-bit little-endian. -/
def u16le (n : Nat) : List Nat := [n % 256, n / 256 % 256]

/-- `struct.pack("<h", z)`: signed 16-bit little-endian. -/
def i16le (z : Int) : List Nat := u16le (z % 65536).toNat

/-- `struct.pack("<I", n)`: unsigned 32-bit little-endian. -/
def u32le (n : Nat) : List Nat :=
  [n % 256, n / 256 % 256, n / 65536 % 256, n / 16777216 % 256]

/-- `struct.pack("<i", z)`: signed 32-bit little-endian. -/
def i32le (z : Int) : List Nat := u32le (z % 4294967296).toNat

/-! ## Glyph bitmaps and the 4-bit intermediate -/

/-- A rendered FreeType glyph bitmap as the scripts see it:
`bitmap.width`, `bitmap.rows`, `bitmap.pitch` and `bitmap.buffer`
(one anti-aliased coverage byte per buffer cell, row-major with row
stride `pitch`).  Both scripts read `width`, `rows` and `buffer` only;
neither reads `pitch`. -/
structure Bitmap where
  width : Nat
  rows : Nat
  pitch : Nat
  buffer : List Nat
deriving Repr, DecidableEq

/-- The flat `for i, v in enumerate(bitmap.buffer)` loop building
`pixels4g` (fontconvert_bin.py lines 94–106, cpf_convert.py lines
83–95).  `i` is the running buffer index, `px` the byte accumulator.
Per element with `x = i % w`:
* even `x`: `px = v >> 4`;
* odd `x`: append `px | (v & 0xF0)` and reset `px`;
then, if `x == w - 1 and w % 2 > 0`, append `px` and reset (for odd
widths this emits the lone last column; the odd-`x` instance of that
second `if` is unreachable for `w > 0` but kept for faithfulness). -/
def pixels4gAux (w : Nat) : Nat → Nat → List Nat → List Nat
  | _, _, [] => []
  | i, px, v :: rest =>
    let x := i % w
    if x % 2 = 0 then
      if x = w - 1 ∧ w % 2 > 0 then
        (v >>> 4) :: pixels4gAux w (i + 1) 0 rest
      else
        pixels4gAux w (i + 1) (v >>> 4) rest
    else
      if x = w - 1 ∧ w % 2 > 0 then
        (px ||| (v &&& 0xF0)) :: 0 :: pixels4gAux w (i + 1) 0 rest
      else
        (px ||| (v &&& 0xF0)) :: pixels4gAux w (i + 1) 0 rest

/-- The 4-bit intermediate of a glyph buffer. -/
def pixels4g (w : Nat) (buffer : List Nat) : List Nat := pixels4gAux w 0 0 buffer

/-- One row of the 4-bit intermediate, stated as the layout the packers
read back: each output byte holds the even-indexed pixel's top 4 bits
in its LOW nibble (`a >>> 4`) and the odd-indexed pixel's top 4 bits in
its HIGH nibble (`b &&& 0xF0`); an odd-width row packs its last column
alone as `a >>> 4`, leaving the high nibble zero. -/
def rowPack : List Nat → List Nat
  | [] => []
  | [a] => [a >>> 4]
  | a :: b :: rest => ((a >>> 4) ||| (b &&& 0xF0)) :: rowPack rest

/-- Row-structured description of the whole 4-bit intermediate:
`rows` rows of `w` buffer bytes each, packed row by row. -/
def pack4gRows (w : Nat) : Nat → List Nat → List Nat
  | 0, _ => []
  | r + 1, buf => rowPack (buf.take w) ++ pack4gRows w r (buf.drop w)

/-! ## Final packing (2-bit and 1-bit) -/

/-- The threshold quantization of the 2-bit packers
(`bm >= 12 → 3`, `>= 8 → 2`, `>= 4 → 1`, else `0`). -/
def quant2 (n : Nat) : Nat :=
  if 12 ≤ n then 3 else if 8 ≤ n then 2 else if 4 ≤ n then 1 else 0

/-- The nibble fetch of the 2-bit packers:
`(pixels4g[y * pitch + x // 2] >> ((x % 2) * 4)) & 0xF`. -/
def nibAt (g4 : List Nat) (pitch y x : Nat) : Nat :=
  (g4.getD (y * pitch + x / 2) 0 >>> ((x % 2) * 4)) &&& 0xF

/-- The 2-bit packing loop (fontconvert_bin.py lines 108–125,
cpf_convert.py lines 97–117), flattened over the pixel index
`p = y * w + x` (the nested `for y / for x` loops traverse exactly
`p = 0, 1, ...`).  Returns the flushed bytes and the final partial
accumulator. -/
def pack2Aux (w pitch : Nat) (g4 : List Nat) : List Nat → Nat → List Nat × Nat
  | [], px => ([], px)
  | p :: rest, px =>
    let px2 := (px <<< 2) + quant2 (nibAt g4 pitch (p / w) (p % w))
    if p % 4 = 3 then
      let r := pack2Aux w pitch g4 rest 0
      (px2 :: r.1, r.2)
    else
      pack2Aux w pitch g4 rest px2

/-- `pixels2b`: the packed 2-bit bitmap of a glyph, including the final
partial byte left-shifted to pad with zero bits. -/
def pixels2b (bm : Bitmap) : List Nat :=
  let w := bm.width
  let pitch := w / 2 + w % 2
  let g4 := pixels4g w bm.buffer
  let n := w * bm.rows
  let r := pack2Aux w pitch g4 (List.range n) 0
  if n % 4 ≠ 0 then r.1 ++ [r.2 <<< ((4 - n % 4) * 2)] else r.1

/-- The per-pixel ink test of the 1-bit packers: with
`bm = pixels4g[y * pitch + x // 2]`, a pixel is ink when
`(x & 1) == 0 and bm & 0xE > 0` or `(x & 1) == 1 and bm & 0xE0 > 0`. -/
def inkBit (g4 : List Nat) (pitch y x : Nat) : Nat :=
  let bm := g4.getD (y * pitch + x / 2) 0
  if (x &&& 1 = 0 ∧ 0 < bm &&& 0xE) ∨ (x &&& 1 = 1 ∧ 0 < bm &&& 0xE0) then 1 else 0

/-- The 1-bit packing loop (fontconvert_bin.py lines 127–142,
cpf_convert.py lines 144–158), flattened over `p = y * w + x`. -/
def pack1Aux (w pitch : Nat) (g4 : List Nat) : List Nat → Nat → List Nat × Nat
  | [], px => ([], px)
  | p :: rest, px =>
    let px2 := (px <<< 1) + inkBit g4 pitch (p / w) (p % w)
    if p % 8 = 7 then
      let r := pack1Aux w pitch g4 rest 0
      (px2 :: r.1, r.2)
    else
      pack1Aux w pitch g4 rest px2

/-- `pixelsbw`: the packed 1-bit bitmap of a glyph. -/
def pixels1b (bm : Bitmap) : List Nat :=
  let w := bm.width
  let pitch := w / 2 + w % 2
  let g4 := pixels4g w bm.buffer
  let n := w * bm.rows
  let r := pack1Aux w pitch g4 (List.range n) 0
  if n % 8 ≠ 0 then r.1 ++ [r.2 <<< (8 - n % 8)] else r.1

/-- Bit-depth dispatch of both scripts. -/
def rasterize (is2Bit : Bool) (bm : Bitmap) : List Nat :=
  if is2Bit then pixels2b bm else pixels1b bm

/-- Modelled from the spec: the pitch-aware read the spec requires of
callers ("callers must read pitch from the source, not assume it equals
width"): keep only the first `width` coverage bytes of each
`pitch`-wide source row.  Neither script performs this step. -/
def tighten (bm : Bitmap) : Bitmap :=
  { width := bm.width, rows := bm.rows, pitch := bm.width,
    buffer := ((List.range bm.rows).map fun y =>
      ((bm.buffer.drop (y * bm.pitch)).take bm.width)).flatten }

/-! ## Requested intervals: sorting and merging (fontconvert_bin.py) -/

/-- The built-in interval list of `fontconvert_bin.py` (lines 28–42),
in source order. -/
def defaultIntervalsFB : List (Nat × Nat) :=
  [(0x0000, 0x007F), (0x0080, 0x00FF), (0x0100, 0x017F), (0x2000, 0x206F),
   (0x2010, 0x203A), (0x2040, 0x205F), (0x20A0, 0x20CF), (0x0300, 0x036F),
   (0x0400, 0x04FF), (0x2070, 0x209F), (0x2200, 0x22FF), (0x2190, 0x21FF),
   (0xFFFD, 0xFFFD)]

/-- The `DEFAULT_INTERVALS` list of `cpf_convert.py` (lines 48–60), in
source order (note `(0x20A0, 0x20CF)` is listed after
`(0x2200, 0x22FF)`). -/
def defaultIntervalsCPF : List (Nat × Nat) :=
  [(0x0000, 0x007F), (0x0080, 0x00FF), (0x0100, 0x017F), (0x0300, 0x036F),
   (0x0400, 0x04FF), (0x2000, 0x206F), (0x2070, 0x209F), (0x2190, 0x21FF),
   (0x2200, 0x22FF), (0x20A0, 0x20CF), (0xFFFD, 0xFFFD)]

/-- Stable insertion into a lexicographically sorted list of pairs. -/
def insertPair (p : Nat × Nat) : List (Nat × Nat) → List (Nat × Nat)
  | [] => [p]
  | q :: rest =>
    if p.1 < q.1 ∨ (p.1 = q.1 ∧ p.2 ≤ q.2) then p :: q :: rest
    else q :: insertPair p rest

/-- Python's `sorted` on a list of pairs of ints (lexicographic,
stable). -/
def sortPairs : List (Nat × Nat) → List (Nat × Nat)
  | [] => []
  | p :: rest => insertPair p (sortPairs rest)

/-- One step of the merge loop of `fontconvert_bin.py` (lines 65–69),
with the accumulator kept in reverse: the incoming interval is merged
into the previous one exactly when `i_start + 1 <= previous.end`
(extending `previous.end` to the max of the two ends), else appended. -/
def mergeStep (acc : List (Nat × Nat)) (iv : Nat × Nat) : List (Nat × Nat) :=
  match acc with
  | [] => [iv]
  | last :: revRest =>
    if iv.1 + 1 ≤ last.2 then (last.1, max last.2 iv.2) :: revRest
    else iv :: last :: revRest

/-- The full merge loop over the sorted request list. -/
def mergeIntervals (l : List (Nat × Nat)) : List (Nat × Nat) :=
  (l.foldl mergeStep []).reverse

/-- Modelled from the spec: the merge rule as the spec words it — merge
any interval whose start lies at or before `previous.end + 1` into the
previous one. -/
def mergeStepSpec (acc : List (Nat × Nat)) (iv : Nat × Nat) : List (Nat × Nat) :=
  match acc with
  | [] => [iv]
  | last :: revRest =>
    if iv.1 ≤ last.2 + 1 then (last.1, max last.2 iv.2) :: revRest
    else iv :: last :: revRest

/-- Modelled from the spec: spec-side merge of the sorted request
list. -/
def mergeIntervalsSpec (l : List (Nat × Nat)) : List (Nat × Nat) :=
  (l.foldl mergeStepSpec []).reverse

/-- Checker for "pairwise non-overlapping and sorted ascending":
every interval ends strictly before the next one starts. -/
def intervalsSortedDisjoint : List (Nat × Nat) → Bool
  | [] => true
  | [_] => true
  | p :: q :: rest => decide (p.2 < q.1) && intervalsSortedDisjoint (q :: rest)

/-! ## Coverage scan -/

/-- The shared per-request scan loop (fontconvert_bin.py lines 72–78,
cpf_convert.py lines 170–175): walk code points ascending with a
`start` marker; on the first unresolvable code point after a run,
close `[start, cp - 1]` (only if non-empty) and restart at `cp + 1`.
Arguments: current `start`, current code point, remaining loop count.
Returns the closed intervals and the final `start`. -/
def scanAux (resolv : Nat → Bool) : Nat → Nat → Nat → List (Nat × Nat) × Nat
  | start, _, 0 => ([], start)
  | start, cp, n + 1 =>
    if resolv cp then scanAux resolv start (cp + 1) n
    else
      let r := scanAux resolv (cp + 1) (cp + 1) n
      ((if start < cp then [(start, cp - 1)] else []) ++ r.1, r.2)

/-- One merged request scanned by `fontconvert_bin.py`: after the loop,
a final interval `(start, i_end)` is appended when
`start != i_end + 1`. -/
def scanRequestFB (resolv : Nat → Bool) (s e : Nat) : List (Nat × Nat) :=
  let r := scanAux resolv s s (e + 1 - s)
  r.1 ++ (if r.2 = e + 1 then [] else [(r.2, e)])

/-- One request scanned by `cpf_convert.py` (`build_intervals`): the
final interval is appended when `start <= i_end`. -/
def scanRequestCPF (resolv : Nat → Bool) (s e : Nat) : List (Nat × Nat) :=
  let r := scanAux resolv s s (e + 1 - s)
  r.1 ++ (if r.2 ≤ e then [(r.2, e)] else [])

/-- `build_intervals(face, requested)` of `cpf_convert.py` (lines
163–178): a code point resolves when `face.get_char_index(cp) != 0`. -/
def build_intervals (charIndex : Nat → Nat) (requested : List (Nat × Nat)) :
    List (Nat × Nat) :=
  (requested.map fun p => scanRequestCPF (fun cp => charIndex cp != 0) p.1 p.2).flatten

/-- The code points enumerated by a coverage interval list, in emission
order (`for i_start, i_end in intervals: for cp in range(i_start, i_end + 1)`). -/
def intervalCps (l : List (Nat × Nat)) : List Nat :=
  (l.map fun p => List.range' p.1 (p.2 + 1 - p.1)).flatten

/-- The running `glyphIndexOffset` values written for an interval list
(fontconvert_bin.py lines 173–176, cpf_convert.py lines 257–260):
`offset` starts at 0 and grows by `i_end - i_start + 1` per interval. -/
def intervalOffsets : List (Nat × Nat) → Nat → List Nat
  | [], _ => []
  | (s, e) :: rest, off => off :: intervalOffsets rest (off + (e - s + 1))

/-! ## The FreeType face abstraction -/

/-- A loaded font face, as observed by the scripts after
`set_char_size`: `get_char_index` (0 = code point not present), the
glyph slot populated by `load_glyph(glyph_index, FT_LOAD_RENDER)`
(bitmap, 26.6 advance, bitmap origin offsets, keyed here by glyph
index), and the face-wide 26.6 size metrics. -/
structure Face where
  charIndex : Nat → Nat
  glyphBitmap : Nat → Bitmap
  glyphAdvanceX : Nat → Int
  glyphLeft : Nat → Int
  glyphTop : Nat → Int
  sizeHeight : Int
  sizeAscender : Int
  sizeDescender : Int

/-- `load_glyph(code_point)` of `fontconvert_bin.py` (lines 54–60):
first face in the stack whose `get_char_index` is non-zero, together
with that glyph index; `None` when no face defines the code point. -/
def load_glyph : List Face → Nat → Option (Face × Nat)
  | [], _ => none
  | f :: rest, cp =>
    if f.charIndex cp > 0 then some (f, f.charIndex cp) else load_glyph rest cp

/-- A code point is renderable by the stack iff `load_glyph` finds a
face. -/
def resolves (stack : List Face) (cp : Nat) : Bool := (load_glyph stack cp).isSome

/-! ## Glyph records and the glyph table -/

/-- The per-glyph data gathered in the main pass, before offsets are
assigned. -/
structure GlyphRaw where
  width : Nat
  height : Nat
  advanceX : Int
  left : Int
  top : Int
  packed : List Nat

/-- A `GlyphProps` record as serialized (`width`, `height`,
`advance_x`, `left`, `top`, `data_length`, `data_offset`). -/
structure GlyphProps where
  width : Nat
  height : Nat
  advanceX : Int
  left : Int
  top : Int
  dataLength : Nat
  dataOffset : Nat
deriving Repr, DecidableEq

instance : Inhabited GlyphProps := ⟨⟨0, 0, 0, 0, 0, 0, 0⟩⟩

/-- The accumulation loop shared by both scripts
(fontconvert_bin.py lines 144–157, cpf_convert.py lines 200–211):
each glyph's `data_offset` is the running `total_bitmap_size` before
its own `data_length` is added.  Returns the glyph table and the final
total. -/
def buildGlyphTable : List GlyphRaw → Nat → List GlyphProps × Nat
  | [], total => ([], total)
  | r :: rest, total =>
    let g : GlyphProps :=
      ⟨r.width, r.height, r.advanceX, r.left, r.top, r.packed.length, total⟩
    let rec2 := buildGlyphTable rest (total + r.packed.length)
    (g :: rec2.1, rec2.2)

/-! ## Binary output -/

/-- A CPF bundle header, as both scripts compute it. -/
structure BundleHeader where
  advanceY : Int
  ascender : Int
  descender : Int
  is2Bit : Bool
  intervalCount : Nat
  glyphCount : Nat
  bitmapSize : Nat

instance : Inhabited BundleHeader := ⟨⟨0, 0, 0, false, 0, 0, 0⟩⟩

/-- The header bytes: magic `"CPF\x01"`, then
`struct.pack("<Biib", advance_y, ascender, descender, is2Bit)`, then
`struct.pack("<III", intervalCount, glyphCount, bitmapSize)`
(fontconvert_bin.py lines 166–170; cpf_convert.py lines 247–254 write
the same fields with separate packs). -/
def headerBytes (h : BundleHeader) : List Nat :=
  [0x43, 0x50, 0x46, 0x01] ++
  u8 (h.advanceY % 256).toNat ++ i32le h.ascender ++ i32le h.descender ++
  i8 (if h.is2Bit then 1 else 0) ++
  u32le h.intervalCount ++ u32le h.glyphCount ++ u32le h.bitmapSize

/-- The interval table: `struct.pack("<III", first, last, offset)` per
interval with the running offset. -/
def intervalBytes : List (Nat × Nat) → Nat → List Nat
  | [], _ => []
  | (s, e) :: rest, off =>
    u32le s ++ u32le e ++ u32le off ++ intervalBytes rest (off + (e - s + 1))

/-- One 16-byte glyph record:
`struct.pack("<BBBxhhHxxI", width, height, advance_x, left, top,
data_length, data_offset)` — the `x` pad bytes are written as zero. -/
def packGlyph (g : GlyphProps) : List Nat :=
  u8 g.width ++ u8 g.height ++ i8 g.advanceX ++ [0] ++
  i16le g.left ++ i16le g.top ++ u16le g.dataLength ++ [0, 0] ++
  u32le g.dataOffset

/-- The glyph table write loop. -/
def packGlyphs : List GlyphProps → List Nat
  | [] => []
  | g :: rest => packGlyph g ++ packGlyphs rest

/-- The bitmap payload write loop: all packed bitmaps concatenated with
no separators. -/
def catData : List (List Nat) → List Nat
  | [] => []
  | d :: rest => d ++ catData rest

/-- The complete byte stream written by either script's output block:
header, interval table (offsets starting at 0), glyph table, payload. -/
def writeBundle (h : BundleHeader) (ivs : List (Nat × Nat))
    (gs : List GlyphProps) (datas : List (List Nat)) : List Nat :=
  headerBytes h ++ intervalBytes ivs 0 ++ packGlyphs gs ++ catData datas

/-! ## The fontconvert_bin.py pipeline -/

/-- The merged request list of a `fontconvert_bin.py` run:
`sorted(intervals + add_ints)` then the merge loop. -/
def mergedFB (add : List (Nat × Nat)) : List (Nat × Nat) :=
  mergeIntervals (sortPairs (defaultIntervalsFB ++ add))

/-- The coverage interval list of a run (the pre-pass over all merged
requests, probing `load_glyph`). -/
def covFB (stack : List Face) (add : List (Nat × Nat)) : List (Nat × Nat) :=
  ((mergedFB add).map fun p => scanRequestFB (resolves stack) p.1 p.2).flatten

/-- The main pass for one covered code point: resolve the face, read
the glyph slot, rasterize and pack.  Coverage guarantees the resolver
succeeds for every enumerated code point (Python would raise on a
`None` face here). -/
def glyphRawFB (stack : List Face) (is2Bit : Bool) (cp : Nat) : Option GlyphRaw :=
  (load_glyph stack cp).map fun fi =>
    let bm := fi.1.glyphBitmap fi.2
    { width := bm.width, height := bm.rows,
      advanceX := norm_floor (fi.1.glyphAdvanceX fi.2),
      left := fi.1.glyphLeft fi.2, top := fi.1.glyphTop fi.2,
      packed := rasterize is2Bit bm }

/-- All glyphs of a run, in coverage order. -/
def rawsFB (stack : List Face) (add : List (Nat × Nat)) (is2Bit : Bool) :
    List GlyphRaw :=
  (intervalCps (covFB stack add)).filterMap (glyphRawFB stack is2Bit)

/-- The glyph table of a run (records with offsets assigned). -/
def glyphTableFB (stack : List Face) (add : List (Nat × Nat)) (is2Bit : Bool) :
    List GlyphProps :=
  (buildGlyphTable (rawsFB stack add is2Bit) 0).1

/-- The `total_bitmap_size` of a run. -/
def bitmapSizeFB (stack : List Face) (add : List (Nat × Nat)) (is2Bit : Bool) : Nat :=
  (buildGlyphTable (rawsFB stack add is2Bit) 0).2

/-- The packed bitmap payload pieces of a run, in glyph-table order. -/
def datasFB (stack : List Face) (add : List (Nat × Nat)) (is2Bit : Bool) :
    List (List Nat) :=
  (rawsFB stack add is2Bit).map GlyphRaw.packed

/-- The header of a run (fontconvert_bin.py lines 159–162):
`face = load_glyph(ord('|'))`, then `advance_y = norm_ceil
(face.size.height)`, `ascender = norm_ceil(face.size.ascender)`,
`descender = norm_floor(face.size.descender)`.  When no face defines
`'|'` (code point 124), `load_glyph` returns `None` and the attribute
reads raise, so no header exists and nothing is written. -/
def headerFB (stack : List Face) (add : List (Nat × Nat)) (is2Bit : Bool) :
    Option BundleHeader :=
  (load_glyph stack 124).map fun fi =>
    { advanceY := norm_ceil fi.1.sizeHeight,
      ascender := norm_ceil fi.1.sizeAscender,
      descender := norm_floor fi.1.sizeDescender,
      is2Bit := is2Bit,
      intervalCount := (covFB stack add).length,
      glyphCount := (glyphTableFB stack add is2Bit).length,
      bitmapSize := bitmapSizeFB stack add is2Bit }

/-- A complete `fontconvert_bin.py` run: the bytes written to the
output file, or `none` when the run aborts before writing (failed
module-level assert, or unresolvable reference glyph `'|'`). -/
def runFB (stack : List Face) (add : List (Nat × Nat)) (is2Bit : Bool) :
    Option (List Nat) :=
  if fbAssertsPass then
    (headerFB stack add is2Bit).map fun hd =>
      writeBundle hd (covFB stack add) (glyphTableFB stack add is2Bit)
        (datasFB stack add is2Bit)
  else none

/-! ## The cpf_convert.py pipeline -/

/-- The coverage of a `cpf_convert.py` run: `build_intervals` over
`DEFAULT_INTERVALS` (no extra intervals, no merge step). -/
def covCPF (face : Face) : List (Nat × Nat) :=
  build_intervals face.charIndex defaultIntervalsCPF

/-- The glyph code points of a run, in emission order: each interval's
code points, skipping any whose `get_char_index` is 0. -/
def glyphCpsCPF (face : Face) : List Nat :=
  (intervalCps (covCPF face)).filter fun cp => face.charIndex cp != 0

/-- The glyphs of a `cpf_convert.py` run. -/
def rawsCPF (face : Face) (use2bit : Bool) : List GlyphRaw :=
  (glyphCpsCPF face).map fun cp =>
    let bm := face.glyphBitmap (face.charIndex cp)
    { width := bm.width, height := bm.rows,
      advanceX := norm_floor (face.glyphAdvanceX (face.charIndex cp)),
      left := face.glyphLeft (face.charIndex cp),
      top := face.glyphTop (face.charIndex cp),
      packed := rasterize use2bit bm }

/-- The glyph table of a `cpf_convert.py` run (records with offsets
assigned by the same accumulation loop, lines 200–211). -/
def glyphTableCPF (face : Face) (use2bit : Bool) : List GlyphProps :=
  (buildGlyphTable (rawsCPF face use2bit) 0).1

/-- The `total_size` (header `bitmapSize`) of a `cpf_convert.py` run. -/
def bitmapSizeCPF (face : Face) (use2bit : Bool) : Nat :=
  (buildGlyphTable (rawsCPF face use2bit) 0).2

/-- The header of a `cpf_convert.py` run (lines 218–224): metrics read
from `face.size` after `set_char_size`, regardless of whether the
reference glyph was loaded. -/
def headerCPF (face : Face) (use2bit : Bool) : BundleHeader :=
  { advanceY := norm_ceil face.sizeHeight,
    ascender := norm_ceil face.sizeAscender,
    descender := norm_floor face.sizeDescender,
    is2Bit := use2bit,
    intervalCount := (covCPF face).length,
    glyphCount := (glyphTableCPF face use2bit).length,
    bitmapSize := bitmapSizeCPF face use2bit }

/-- A complete `cpf_convert.py` run.  `sys.exit(1)` when no interval
survives; otherwise the metrics are read from `face.size` — the
reference glyph `'|'` is loaded only when present (`if pipe_idx:`) and
its absence does not stop the run — and the bundle is written after
the two size asserts. -/
def runCPF (face : Face) (use2bit : Bool) : Option (List Nat) :=
  if (covCPF face).isEmpty then none
  else if cpfAssertsPass then
    some (writeBundle (headerCPF face use2bit) (covCPF face)
      (glyphTableCPF face use2bit) ((rawsCPF face use2bit).map GlyphRaw.packed))
  else none

/-! ## Concrete faces used as witnesses and counterexamples -/

/-- A 1×1 all-ink bitmap. -/
def bmDot : Bitmap := ⟨1, 1, 1, [255]⟩

/-- A face defining only the vertical bar `'|'` (code point 124). -/
def faceOnlyPipe : Face :=
  { charIndex := fun cp => if cp = 124 then 1 else 0,
    glyphBitmap := fun _ => bmDot,
    glyphAdvanceX := fun _ => 64,
    glyphLeft := fun _ => 0,
    glyphTop := fun _ => 1,
    sizeHeight := 128, sizeAscender := 64, sizeDescender := -32 }

/-- A face defining `'A'` (65) and `'C'` (67) but not `'B'` (66) and
not `'|'`. -/
def faceAC : Face :=
  { charIndex := fun cp => if cp = 65 ∨ cp = 67 then 2 else 0,
    glyphBitmap := fun _ => bmDot,
    glyphAdvanceX := fun _ => 70,
    glyphLeft := fun _ => 0,
    glyphTop := fun _ => 1,
    sizeHeight := 100, sizeAscender := 50, sizeDescender := -20 }

/-- A face defining every code point. -/
def faceAll : Face :=
  { charIndex := fun _ => 1,
    glyphBitmap := fun _ => bmDot,
    glyphAdvanceX := fun _ => 64,
    glyphLeft := fun _ => 0,
    glyphTop := fun _ => 1,
    sizeHeight := 128, sizeAscender := 64, sizeDescender := -32 }

/-- A face defining `'A'`, `'B'` (both code points 65 and 66) and
`'|'`. -/
def faceAB : Face :=
  { charIndex := fun cp => if cp = 65 ∨ cp = 66 ∨ cp = 124 then 3 else 0,
    glyphBitmap := fun idx => if idx = 3 then ⟨2, 1, 2, [255, 16]⟩ else bmDot,
    glyphAdvanceX := fun _ => 130,
    glyphLeft := fun _ => 1,
    glyphTop := fun _ => 2,
    sizeHeight := 200, sizeAscender := 90, sizeDescender := -40 }

/-- Two-at-a-time structural recursion on lists, matching the pairing
structure of `rowPack`. -/
def twoStepRec {motive : List Nat → Sort _} (h0 : motive [])
    (h1 : ∀ a, motive [a])
    (h2 : ∀ a b l, motive l → motive (a :: b :: l)) : ∀ l, motive l
  | [] => h0
  | [a] => h1 a
  | a :: b :: l => h2 a b l (twoStepRec h0 h1 h2 l)

/-! # Helper lemmas -/

theorem u8_length (n : Nat) : (u8 n).length = 1 := rfl

theorem i8_length (z : Int) : (i8 z).length = 1 := rfl

theorem u16le_length (n : Nat) : (u16le n).length = 2 := rfl

theorem i16le_length (z : Int) : (i16le z).length = 2 := rfl

theorem u32le_length (n : Nat) : (u32le n).length = 4 := rfl

theorem i32le_length (z : Int) : (i32le z).length = 4 := rfl

theorem headerBytes_length (h : BundleHeader) : (headerBytes h).length = 26 := rfl

theorem packGlyph_length (g : GlyphProps) : (packGlyph g).length = 16 := rfl

theorem intervalBytes_length (l : List (Nat × Nat)) :
    ∀ off, (intervalBytes l off).length = 12 * l.length := by
  induction l with
  | nil => intro off; rfl
  | cons p rest ih =>
    intro off
    obtain ⟨s, e⟩ := p
    simp [intervalBytes, u32le, ih]
    omega

theorem packGlyphs_length (gs : List GlyphProps) :
    (packGlyphs gs).length = 16 * gs.length := by
  induction gs with
  | nil => rfl
  | cons g rest ih =>
    simp [packGlyphs, packGlyph_length, ih]
    omega

theorem catData_length (ds : List (List Nat)) :
    (catData ds).length = (ds.map List.length).sum := by
  induction ds with
  | nil => rfl
  | cons d rest ih => simp [catData, ih]

theorem buildGlyphTable_fst_length (raws : List GlyphRaw) :
    ∀ t, ((buildGlyphTable raws t).1).length = raws.length := by
  induction raws with
  | nil => intro t; rfl
  | cons r rest ih => intro t; simp [buildGlyphTable, ih]

theorem buildGlyphTable_total (raws : List GlyphRaw) :
    ∀ t, (buildGlyphTable raws t).2 =
      t + (((buildGlyphTable raws t).1).map GlyphProps.dataLength).sum := by
  induction raws with
  | nil => intro t; simp [buildGlyphTable]
  | cons r rest ih =>
    intro t
    simp [buildGlyphTable, ih (t + r.packed.length)]
    omega

theorem buildGlyphTable_head_offset (raws : List GlyphRaw) :
    ∀ t, 0 < raws.length →
      (((buildGlyphTable raws t).1.getD 0 default).dataOffset) = t := by
  induction raws with
  | nil => intro t h; simp at h
  | cons r rest _ => intro t _; simp [buildGlyphTable]

theorem buildGlyphTable_offset_step (raws : List GlyphRaw) :
    ∀ t i, i + 1 < raws.length →
      ((buildGlyphTable raws t).1.getD (i + 1) default).dataOffset =
        ((buildGlyphTable raws t).1.getD i default).dataOffset +
        ((buildGlyphTable raws t).1.getD i default).dataLength := by
  induction raws with
  | nil => intro t i h; simp at h
  | cons r rest ih =>
    intro t i h
    cases i with
    | zero =>
      have hrest : 0 < rest.length := by simpa using h
      have hhead := buildGlyphTable_head_offset rest (t + r.packed.length) hrest
      simp [buildGlyphTable]
      simpa using hhead
    | succ j =>
      have hj : j + 1 < rest.length := by simpa using h
      simpa [buildGlyphTable] using ih (t + r.packed.length) j hj

theorem catData_packed_length (raws : List GlyphRaw) :
    ∀ t, (catData (raws.map GlyphRaw.packed)).length =
      (((buildGlyphTable raws t).1).map GlyphProps.dataLength).sum := by
  induction raws with
  | nil => intro t; rfl
  | cons r rest ih =>
    intro t
    simp [catData, buildGlyphTable, ih (t + r.packed.length)]

theorem pack2Aux_fst_length (w pitch : Nat) (g4 : List Nat) (l : List Nat) :
    ∀ px, ((pack2Aux w pitch g4 l px).1).length =
      l.countP (fun p => p % 4 == 3) := by
  induction l with
  | nil => intro px; rfl
  | cons p rest ih =>
    intro px
    simp only [pack2Aux, List.countP_cons]
    by_cases h : p % 4 = 3
    · simp [h, ih]
    · simp [h, ih]

theorem pack1Aux_fst_length (w pitch : Nat) (g4 : List Nat) (l : List Nat) :
    ∀ px, ((pack1Aux w pitch g4 l px).1).length =
      l.countP (fun p => p % 8 == 7) := by
  induction l with
  | nil => intro px; rfl
  | cons p rest ih =>
    intro px
    simp only [pack1Aux, List.countP_cons]
    by_cases h : p % 8 = 7
    · simp [h, ih]
    · simp [h, ih]

theorem countP_range_mod4 (n : Nat) :
    (List.range n).countP (fun p => p % 4 == 3) = n / 4 := by
  induction n with
  | zero => rfl
  | succ k ih =>
    rw [List.range_succ, List.countP_append, ih]
    by_cases h : k % 4 = 3 <;> simp [List.countP_cons, h] <;> omega

theorem countP_range_mod8 (n : Nat) :
    (List.range n).countP (fun p => p % 8 == 7) = n / 8 := by
  induction n with
  | zero => rfl
  | succ k ih =>
    rw [List.range_succ, List.countP_append, ih]
    by_cases h : k % 8 = 7 <;> simp [List.countP_cons, h] <;> omega

theorem pixels2b_length (bm : Bitmap) :
    (pixels2b bm).length = (bm.width * bm.rows + 3) / 4 := by
  unfold pixels2b
  by_cases h : bm.width * bm.rows % 4 = 0 <;>
    simp [h, pack2Aux_fst_length, countP_range_mod4] <;> omega

theorem pixels1b_length (bm : Bitmap) :
    (pixels1b bm).length = (bm.width * bm.rows + 7) / 8 := by
  unfold pixels1b
  by_cases h : bm.width * bm.rows % 8 = 0 <;>
    simp [h, pack1Aux_fst_length, countP_range_mod8] <;> omega

theorem mod_succ_eq (i w : Nat) (h : i % w + 1 < w) : (i + 1) % w = i % w + 1 := by
  have h2 : i % w + w * (i / w) = i := Nat.mod_add_div i w
  have h3 : i + 1 = (i % w + 1) + w * (i / w) := by omega
  rw [h3, Nat.add_mul_mod_self_left, Nat.mod_eq_of_lt h]

theorem pixels4gAux_row (w : Nat) :
    ∀ col : List Nat, ∀ (rest : List Nat) (i : Nat),
      0 < col.length → i % w + col.length = w → i % w % 2 = 0 →
      pixels4gAux w i 0 (col ++ rest) =
        rowPack col ++ pixels4gAux w (i + col.length) 0 rest := by
  intro col
  induction col using twoStepRec with
  | h0 => intro rest i hpos _ _; simp at hpos
  | h1 a =>
    intro rest i _ hsum hpar
    simp only [List.length_singleton] at hsum
    have hx : i % w = w - 1 := by omega
    have hw2 : w % 2 > 0 := by omega
    simp only [List.cons_append, List.nil_append, pixels4gAux]
    rw [if_pos hpar, if_pos ⟨hx, hw2⟩]
    simp [rowPack]
  | h2 a b l ih =>
    intro rest i hpos hsum hpar
    have hlen : (a :: b :: l).length = l.length + 2 := by simp
    rw [hlen] at hsum
    have hxw : i % w + 2 ≤ w := by omega
    have hmod1 : (i + 1) % w = i % w + 1 := mod_succ_eq i w (by omega)
    -- first element: even column, not the odd-width last column
    simp only [List.cons_append, pixels4gAux]
    rw [if_pos hpar, if_neg (by omega : ¬(i % w = w - 1 ∧ w % 2 > 0))]
    -- second element: odd column, never triggers the odd-width branch
    rw [hmod1]
    rw [if_neg (by omega : ¬((i % w + 1) % 2 = 0)),
        if_neg (by omega : ¬(i % w + 1 = w - 1 ∧ w % 2 > 0))]
    cases l with
    | nil =>
      simp [rowPack]
    | cons c l2 =>
      have hlc : 0 < (c :: l2).length := by simp
      have hmod2 : (i + 1 + 1) % w = i % w + 2 := by
        rw [mod_succ_eq (i + 1) w (by omega)]
        omega
      have ihr := ih rest (i + 2)
        (by simp)
        (by rw [(by ring : i + 2 = i + 1 + 1), hmod2]; simp at hsum ⊢; omega)
        (by rw [(by ring : i + 2 = i + 1 + 1), hmod2]; omega)
      rw [(by ring : i + 1 + 1 = i + 2)]
      simp only [List.append_eq]
      rw [ihr]
      have harith : i + 2 + (c :: l2).length = i + (a :: b :: c :: l2).length := by
        simp
        omega
      rw [harith]
      simp [rowPack]

theorem pixels4gAux_rows (w : Nat) (hw : 0 < w) :
    ∀ (r : Nat) (buf : List Nat) (i : Nat), i % w = 0 → buf.length = w * r →
      pixels4gAux w i 0 buf = pack4gRows w r buf := by
  intro r
  induction r with
  | zero =>
    intro buf i _ hlen
    have hnil : buf = [] := List.length_eq_zero.mp (by simpa using hlen)
    subst hnil
    rfl
  | succ k ih =>
    intro buf i hi hlen
    rw [Nat.mul_succ] at hlen
    have htake : (buf.take w).length = w := by
      rw [List.length_take]
      omega
    have hrow := pixels4gAux_row w (buf.take w) (buf.drop w) i
      (by omega) (by omega) (by rw [hi])
    have hdrop : (buf.drop w).length = w * k := by
      rw [List.length_drop]
      omega
    have hnext : (i + (buf.take w).length) % w = 0 := by
      rw [htake, Nat.add_mod_right, hi]
    have hrec := ih (buf.drop w) (i + (buf.take w).length) hnext hdrop
    conv_lhs => rw [(List.take_append_drop w buf).symm]
    rw [hrow, hrec]
    simp [pack4gRows]

set_option maxRecDepth 200000

/-! # Claims -/

/-- C1 (counterexample): the claimed total file length
`22 + 12*intervalCount + 16*glyphCount + bitmapSize` is wrong: a
completed run over a face defining `'A'`, `'B'` and `'|'` (2 coverage
intervals, 3 glyphs, 3 payload bytes) writes 101 bytes, not
`22 + 24 + 48 + 3 = 97` — the header is 26 bytes (4 magic + 1 + 4 + 4 +
1 + 4 + 4 + 4), not 22.  Moreover the glyph records of a
`cpf_convert.py` run are not in ascending code-point order: with every
code point renderable, glyph 1279 is `U+22FF` while glyph 1280 is
`U+20A0`. -/
theorem C1_counterexample :
    ((runFB [faceAB] [] true).getD []).length = 101 ∧
    ¬ ((runFB [faceAB] [] true).getD []).length =
      22 + 12 * (covFB [faceAB] []).length +
      16 * (glyphTableFB [faceAB] [] true).length +
      bitmapSizeFB [faceAB] [] true ∧
    (glyphCpsCPF faceAll).getD 1279 0 = 0x22FF ∧
    (glyphCpsCPF faceAll).getD 1280 0 = 0x20A0 ∧ (0x20A0 : Nat) < 0x22FF := by
  refine ⟨by decide, by decide, by decide, by decide, by decide⟩

/-- C1 (amended): every completed run of either converter writes
exactly the header bytes (4-byte magic, advanceY u8, ascender i32,
descender i32, bit-depth flag byte, intervalCount, glyphCount,
bitmapSize u32 — 26 header bytes in total, all little-endian), then
the 12-byte interval records, then the 16-byte glyph records in the
order the coverage intervals enumerate code points, then every glyph's
packed bitmap concatenated with no separators; the total length is
`26 + 12*intervalCount + 16*glyphCount + bitmapSize`.  Stated for
`fontconvert_bin.py` (`runFB`) and for `cpf_convert.py` (`runCPF`). -/
theorem C1_bundle_layout :
    (∀ (stack : List Face) (add : List (Nat × Nat)) (b : Bool),
      (runFB stack add b).isSome = true →
      (runFB stack add b).getD [] =
        headerBytes ((headerFB stack add b).getD default) ++
        intervalBytes (covFB stack add) 0 ++
        packGlyphs (glyphTableFB stack add b) ++
        catData (datasFB stack add b) ∧
      ((runFB stack add b).getD []).length =
        26 + 12 * (covFB stack add).length +
        16 * (glyphTableFB stack add b).length +
        bitmapSizeFB stack add b) ∧
    (∀ (face : Face) (b : Bool),
      (runCPF face b).isSome = true →
      (runCPF face b).getD [] =
        headerBytes (headerCPF face b) ++
        intervalBytes (covCPF face) 0 ++
        packGlyphs (glyphTableCPF face b) ++
        catData ((rawsCPF face b).map GlyphRaw.packed) ∧
      ((runCPF face b).getD []).length =
        26 + 12 * (covCPF face).length +
        16 * (glyphTableCPF face b).length +
        bitmapSizeCPF face b) := by
  constructor
  · intro stack add b h
    have hdecomp : (runFB stack add b).getD [] =
        headerBytes ((headerFB stack add b).getD default) ++
        intervalBytes (covFB stack add) 0 ++
        packGlyphs (glyphTableFB stack add b) ++
        catData (datasFB stack add b) := by
      cases heq : load_glyph stack 124 with
      | none => simp [runFB, headerFB, heq] at h
      | some fi =>
        simp [runFB, headerFB, heq, writeBundle, show fbAssertsPass = true from rfl]
    refine ⟨hdecomp, ?_⟩
    have hdata : (catData (datasFB stack add b)).length = bitmapSizeFB stack add b := by
      rw [datasFB, catData_packed_length (rawsFB stack add b) 0]
      unfold bitmapSizeFB
      rw [buildGlyphTable_total (rawsFB stack add b) 0]
      omega
    rw [hdecomp]
    simp only [List.length_append, headerBytes_length, intervalBytes_length,
      packGlyphs_length, hdata]
  · intro face b h
    have hdecomp : (runCPF face b).getD [] =
        headerBytes (headerCPF face b) ++
        intervalBytes (covCPF face) 0 ++
        packGlyphs (glyphTableCPF face b) ++
        catData ((rawsCPF face b).map GlyphRaw.packed) := by
      cases hi : (covCPF face).isEmpty with
      | true => simp [runCPF, hi] at h
      | false =>
        simp [runCPF, hi, writeBundle, show cpfAssertsPass = true from rfl]
    refine ⟨hdecomp, ?_⟩
    have hdata : (catData ((rawsCPF face b).map GlyphRaw.packed)).length =
        bitmapSizeCPF face b := by
      rw [catData_packed_length (rawsCPF face b) 0]
      unfold bitmapSizeCPF
      rw [buildGlyphTable_total (rawsCPF face b) 0]
      omega
    rw [hdecomp]
    simp only [List.length_append, headerBytes_length, intervalBytes_length,
      packGlyphs_length, hdata]

/-- C1 (witness): a completed `fontconvert_bin.py` run over the face
defining only `'|'` (1 interval, 1 glyph, 1 payload byte) has length
`26 + 12 + 16 + 1 = 55`, and a completed `cpf_convert.py` run over
`faceAC` (2 intervals, 2 glyphs, 2 payload bytes) has length
`26 + 24 + 32 + 2 = 84`. -/
theorem C1_witness :
    ((runFB [faceOnlyPipe] [] true).isSome = true ∧
     ((runFB [faceOnlyPipe] [] true).getD []).length =
       26 + 12 * (covFB [faceOnlyPipe] []).length +
       16 * (glyphTableFB [faceOnlyPipe] [] true).length +
       bitmapSizeFB [faceOnlyPipe] [] true) ∧
    ((runCPF faceAC true).isSome = true ∧
     ((runCPF faceAC true).getD []).length =
       26 + 12 * (covCPF faceAC).length +
       16 * (glyphTableCPF faceAC true).length +
       bitmapSizeCPF faceAC true) :=
  ⟨⟨by decide, (C1_bundle_layout.1 [faceOnlyPipe] [] true (by decide)).2⟩,
   ⟨by decide, (C1_bundle_layout.2 faceAC true (by decide)).2⟩⟩

/-- C2 (code bug): the merge loop merges only when
`i_start + 1 <= previous.end`, i.e. when the new interval starts
strictly before the previous end.  The sorted request list
`[(0,5),(5,10)]` (overlap of exactly one code point) is left unmerged
and overlapping, and the adjacent `[(0,5),(6,10)]` is left unmerged,
while the spec's rule (`start <= previous.end + 1`) merges both to
`[(0,10)]`.  So the merged result is neither disjoint nor minimal. -/
theorem C2_merge_eval :
    sortPairs [(0, 5), (5, 10)] = [(0, 5), (5, 10)] ∧
    mergeIntervals (sortPairs [(0, 5), (5, 10)]) = [(0, 5), (5, 10)] ∧
    intervalsSortedDisjoint (mergeIntervals (sortPairs [(0, 5), (5, 10)])) = false ∧
    mergeIntervalsSpec (sortPairs [(0, 5), (5, 10)]) = [(0, 10)] ∧
    mergeIntervals (sortPairs [(0, 5), (6, 10)]) = [(0, 5), (6, 10)] ∧
    mergeIntervalsSpec (sortPairs [(0, 5), (6, 10)]) = [(0, 10)] := by
  decide

/-- C3 (counterexample): the 4-bit intermediate puts the even-indexed
pixel in the LOW nibble, not the high one.  For a width-2 row with
pixels `[0xF0, 0x00]` the claim predicts the byte `0xF0` (even pixel's
top bits in the high nibble); the code produces `0x0F`. -/
theorem C3_counterexample :
    pixels4g 2 [240, 0] = [15] ∧ (15 : Nat) ≠ 240 := by
  decide

/-- C3 (amended): for every glyph bitmap (width `w > 0`, `rows` rows of
`w` coverage bytes), the 4-bit intermediate packs two adjacent pixels'
top 4 bits into one byte with the even-indexed pixel in the low nibble
(`a >>> 4`) and the odd-indexed pixel in the high nibble
(`b &&& 0xF0`); when the width is odd, the last column of each row is
packed alone (`a >>> 4`) with its partner (high) nibble left as zero —
this is exactly the row-structured reference `pack4gRows`. -/
theorem C3_nibble_layout (w rows : Nat) (buf : List Nat) (hw : 0 < w)
    (hlen : buf.length = w * rows) :
    pixels4g w buf = pack4gRows w rows buf :=
  pixels4gAux_rows w hw rows buf 0 (by simp) hlen

/-- C3 (witness): a 3×2 bitmap, evaluated concretely. -/
theorem C3_witness :
    0 < 3 ∧ ([18, 52, 86, 255, 255, 255] : List Nat).length = 3 * 2 ∧
    pixels4g 3 [18, 52, 86, 255, 255, 255] =
      pack4gRows 3 2 [18, 52, 86, 255, 255, 255] :=
  ⟨by decide, by decide, C3_nibble_layout 3 2 [18, 52, 86, 255, 255, 255] (by decide) (by decide)⟩

/-- C4 (code bug): the packers never read `bitmap.pitch`; they consume
the buffer with stride `width`.  For a bitmap with `width = 1`,
`rows = 2`, `pitch = 2` and buffer `[255, 240, 0, 0]` (visible pixels
255 and 0, pad bytes 240 and 0), the 2-bit packing of what the code
reads is `[240]` — the second row's nibble is taken from the pad byte —
while packing the pitch-aware visible pixels (`tighten`, as the spec
requires) gives `[192]`. -/
theorem C4_pitch_eval :
    pixels2b ⟨1, 2, 2, [255, 240, 0, 0]⟩ = [240] ∧
    tighten ⟨1, 2, 2, [255, 240, 0, 0]⟩ = ⟨1, 2, 1, [255, 0]⟩ ∧
    pixels2b (tighten ⟨1, 2, 2, [255, 240, 0, 0]⟩) = [192] ∧
    pixels2b ⟨1, 2, 2, [255, 240, 0, 0]⟩ ≠
      pixels2b (tighten ⟨1, 2, 2, [255, 240, 0, 0]⟩) := by
  decide

/-- C5 (counterexample): `cpf_convert.py` does NOT fail when no source
defines the reference glyph `'|'`: `faceAC` has no glyph for code
point 124, yet the run completes and emits a bundle (the `if pipe_idx:`
guard merely skips loading the glyph and the `face.size` metrics are
used anyway). -/
theorem C5_counterexample :
    faceAC.charIndex 124 = 0 ∧ (runCPF faceAC true).isSome = true := by
  refine ⟨rfl, by decide⟩

/-- C5 (amended): when no face in the stack defines `'|'`,
`fontconvert_bin.py` aborts before opening the output (the attribute
reads on the `None` face raise), so no bundle is emitted; but
`cpf_convert.py` tolerates the missing reference glyph and emits a
bundle (using the face-wide `face.size` metrics) whenever any coverage
interval survives. -/
theorem C5_reference_glyph :
    (∀ (stack : List Face) (add : List (Nat × Nat)) (b : Bool),
      load_glyph stack 124 = none → runFB stack add b = none) ∧
    (∀ (face : Face) (b : Bool), face.charIndex 124 = 0 →
      (covCPF face).isEmpty = false → (runCPF face b).isSome = true) := by
  constructor
  · intro stack add b h
    simp [runFB, headerFB, h]
  · intro face b _ hne
    simp [runCPF, hne]
    rfl

/-- C5 (witness): `faceAC` resolves neither branch vacuously: the
fontconvert_bin run on a stack without `'|'` writes nothing, and the
cpf_convert run without `'|'` still emits. -/
theorem C5_witness :
    load_glyph [faceAC] 124 = none ∧ runFB [faceAC] [] true = none ∧
    faceAC.charIndex 124 = 0 ∧ (covCPF faceAC).isEmpty = false ∧
    (runCPF faceAC true).isSome = true :=
  ⟨rfl, C5_reference_glyph.1 [faceAC] [] true rfl, rfl, by decide,
   C5_reference_glyph.2 faceAC true rfl (by decide)⟩

/-- C6 (counterexample): the claim says the encoder asserts BOTH
computed record sizes; `cpf_convert.py` does, but `fontconvert_bin.py`
has no interval-record assertion — its assert set contains only the
glyph-record check. -/
theorem C6_counterexample :
    (calcsize INTERVAL_FMT, 12) ∈ cpfAsserts ∧
    (calcsize INTERVAL_FMT, 12) ∉ fbAsserts ∧
    fbAsserts = [(calcsize GLYPH_STRUCT, 16)] := by
  decide

/-- C6 (amended): `cpf_convert.py` asserts both computed record sizes
(16 and 12) before opening the output, `fontconvert_bin.py` asserts
only the glyph-record size 16 (at import, before any output); both
computed sizes are correct, so the asserts pass, and every emitted
glyph record is 16 bytes and every interval record 12 bytes. -/
theorem C6_record_sizes :
    fbAssertsPass = true ∧ cpfAssertsPass = true ∧
    calcsize GLYPH_STRUCT = 16 ∧ calcsize INTERVAL_FMT = 12 ∧
    (∀ g : GlyphProps, (packGlyph g).length = 16) ∧
    (∀ (l : List (Nat × Nat)) (off : Nat),
      (intervalBytes l off).length = 12 * l.length) :=
  ⟨rfl, rfl, rfl, rfl, packGlyph_length, intervalBytes_length⟩

theorem glyphTable_invariants (raws : List GlyphRaw) :
    (((buildGlyphTable raws 0).1.getD 0 default).dataOffset = 0) ∧
    (∀ i, i + 1 < (buildGlyphTable raws 0).1.length →
      ((buildGlyphTable raws 0).1.getD (i + 1) default).dataOffset =
        ((buildGlyphTable raws 0).1.getD i default).dataOffset +
        ((buildGlyphTable raws 0).1.getD i default).dataLength) ∧
    (((buildGlyphTable raws 0).1.map GlyphProps.dataLength).sum =
      (buildGlyphTable raws 0).2) := by
  refine ⟨?_, ?_, ?_⟩
  · cases raws with
    | nil => rfl
    | cons r rest => exact buildGlyphTable_head_offset (r :: rest) 0 (by simp)
  · intro i h
    exact buildGlyphTable_offset_step raws 0 i
      (by rw [← buildGlyphTable_fst_length raws 0]; exact h)
  · rw [buildGlyphTable_total raws 0]
    omega

/-- C7: in every glyph table either converter emits, the first record's
`dataOffset` is 0, each next record's `dataOffset` is the previous
record's `dataOffset + dataLength` (exclusive running sum), and the
`dataLength` values sum to the `bitmapSize` declared in the header
(`total_bitmap_size` in `fontconvert_bin.py`, `total_size` in
`cpf_convert.py`). -/
theorem C7_offsets :
    (∀ (stack : List Face) (add : List (Nat × Nat)) (is2Bit : Bool),
      ((glyphTableFB stack add is2Bit).getD 0 default).dataOffset = 0 ∧
      (∀ i, i + 1 < (glyphTableFB stack add is2Bit).length →
        ((glyphTableFB stack add is2Bit).getD (i + 1) default).dataOffset =
          ((glyphTableFB stack add is2Bit).getD i default).dataOffset +
          ((glyphTableFB stack add is2Bit).getD i default).dataLength) ∧
      ((glyphTableFB stack add is2Bit).map GlyphProps.dataLength).sum =
        bitmapSizeFB stack add is2Bit) ∧
    (∀ (face : Face) (use2bit : Bool),
      ((glyphTableCPF face use2bit).getD 0 default).dataOffset = 0 ∧
      (∀ i, i + 1 < (glyphTableCPF face use2bit).length →
        ((glyphTableCPF face use2bit).getD (i + 1) default).dataOffset =
          ((glyphTableCPF face use2bit).getD i default).dataOffset +
          ((glyphTableCPF face use2bit).getD i default).dataLength) ∧
      ((glyphTableCPF face use2bit).map GlyphProps.dataLength).sum =
        bitmapSizeCPF face use2bit) := by
  constructor
  · intro stack add is2Bit
    simp only [glyphTableFB, bitmapSizeFB]
    exact glyphTable_invariants (rawsFB stack add is2Bit)
  · intro face use2bit
    simp only [glyphTableCPF, bitmapSizeCPF]
    exact glyphTable_invariants (rawsCPF face use2bit)

/-- C7 (witness): the `fontconvert_bin.py` run over `faceAB` has three
glyphs and the `cpf_convert.py` run over `faceAC` has two; in both
tables record 1's offset equals record 0's offset plus its length. -/
theorem C7_witness :
    (0 + 1 < (glyphTableFB [faceAB] [] true).length ∧
     ((glyphTableFB [faceAB] [] true).getD (0 + 1) default).dataOffset =
       ((glyphTableFB [faceAB] [] true).getD 0 default).dataOffset +
       ((glyphTableFB [faceAB] [] true).getD 0 default).dataLength) ∧
    (0 + 1 < (glyphTableCPF faceAC true).length ∧
     ((glyphTableCPF faceAC true).getD (0 + 1) default).dataOffset =
       ((glyphTableCPF faceAC true).getD 0 default).dataOffset +
       ((glyphTableCPF faceAC true).getD 0 default).dataLength) :=
  ⟨⟨by decide, (C7_offsets.1 [faceAB] [] true).2.1 0 (by decide)⟩,
   ⟨by decide, (C7_offsets.2 faceAC true).2.1 0 (by decide)⟩⟩

/-- C8 (code bug): the emitted coverage intervals are NOT always
sorted ascending: `cpf_convert.py`'s own `DEFAULT_INTERVALS` lists
`(0x2200, 0x22FF)` before `(0x20A0, 0x20CF)` (contradicting the
"must be non-overlapping, ascending order" comment above it), and
`build_intervals` preserves request order, so for a face rendering
every code point the emitted interval list itself is out of order. -/
theorem C8_interval_order_eval :
    build_intervals faceAll.charIndex defaultIntervalsCPF = defaultIntervalsCPF ∧
    (covCPF faceAll).getD 8 (0, 0) = (0x2200, 0x22FF) ∧
    (covCPF faceAll).getD 9 (0, 0) = (0x20A0, 0x20CF) ∧
    intervalsSortedDisjoint (covCPF faceAll) = false := by
  refine ⟨by decide, by decide, by decide, by decide⟩

/-- C9: for every font stack resolving `'A'` (0x41) and `'C'` (0x43)
but not `'B'` (0x42), scanning the request `[0x41, 0x43]` yields
exactly the two coverage intervals `[0x41,0x41]` and `[0x43,0x43]`,
each covering one code point (hence one glyph), with glyph index
offsets 0 and 1. -/
theorem C9_split_coverage (stack : List Face)
    (hA : resolves stack 65 = true) (hB : resolves stack 66 = false)
    (hC : resolves stack 67 = true) :
    scanRequestFB (resolves stack) 65 67 = [(65, 65), (67, 67)] ∧
    ((scanRequestFB (resolves stack) 65 67).map fun p => p.2 - p.1 + 1) = [1, 1] ∧
    intervalOffsets (scanRequestFB (resolves stack) 65 67) 0 = [0, 1] := by
  have h : scanRequestFB (resolves stack) 65 67 = [(65, 65), (67, 67)] := by
    simp only [scanRequestFB]
    norm_num
    simp only [scanAux, hA, hB, hC]
    norm_num
  refine ⟨h, by rw [h]; rfl, by rw [h]; rfl⟩

/-- C9 (witness): the scenario evaluated on `faceAC`. -/
theorem C9_witness :
    resolves [faceAC] 65 = true ∧ resolves [faceAC] 66 = false ∧
    resolves [faceAC] 67 = true ∧
    scanRequestFB (resolves [faceAC]) 65 67 = [(65, 65), (67, 67)] ∧
    intervalOffsets (scanRequestFB (resolves [faceAC]) 65 67) 0 = [0, 1] :=
  ⟨by decide, by decide, by decide,
   (C9_split_coverage [faceAC] (by decide) (by decide) (by decide)).1,
   (C9_split_coverage [faceAC] (by decide) (by decide) (by decide)).2.2⟩

/-- C10: for every glyph bitmap, the packed byte length is
`ceil(w*h/4)` in 2-bit mode and `ceil(w*h/8)` in 1-bit mode; in
particular when `w*h = 0` the packed data is empty, while the glyph
record (`packGlyph`) is still a full 16 bytes. -/
theorem C10_dataLength :
    (∀ bm : Bitmap, (pixels2b bm).length = (bm.width * bm.rows + 3) / 4) ∧
    (∀ bm : Bitmap, (pixels1b bm).length = (bm.width * bm.rows + 7) / 8) ∧
    (∀ bm : Bitmap, bm.width * bm.rows = 0 →
      (pixels2b bm).length = 0 ∧ (pixels1b bm).length = 0) ∧
    (∀ g : GlyphProps, (packGlyph g).length = 16) := by
  refine ⟨pixels2b_length, pixels1b_length, ?_, packGlyph_length⟩
  intro bm h
  rw [pixels2b_length, pixels1b_length, h]
  omega

/-- C10 (witness): a zero-width (space-like) bitmap packs to zero
bytes. -/
theorem C10_witness :
    (⟨0, 3, 0, []⟩ : Bitmap).width * (⟨0, 3, 0, []⟩ : Bitmap).rows = 0 ∧
    (pixels2b ⟨0, 3, 0, []⟩).length = 0 ∧ (pixels1b ⟨0, 3, 0, []⟩).length = 0 :=
  ⟨rfl, C10_dataLength.2.2.1 ⟨0, 3, 0, []⟩ rfl⟩
